import Mathlib

/-! Shallow embedding of skip_list.h.

The header declares an STL-style skip list container.  The default constructor,
`get_allocator`, `empty` and `random_level` have real bodies.  The other member
functions and the relational operators consist of the call
`not_implemented_yet()`, which is `assert("Not implemented yet" && false)`
(the comparison operators add `return false;`), the remaining constructors of
`assert(false)`, and `operator!=` of a call to `operator=`.

Conventions of the embedding:

* a call either returns a value or ends in a `Failure`; functions whose body
  can fail return `Result α = Except Failure α`, the others are plain functions;
* when `NDEBUG` removes the assertion, the stubs that have a result type reach
  their closing brace without a `return`.  The language leaves that behaviour
  undefined, so the source does not fix the outcome; each such function takes
  the outcome as a parameter `undef`;
* `assert` comes from `<cassert>`, whose behaviour depends on whether `NDEBUG`
  is defined when the header is compiled.  The header does not define it, so
  the flag is a parameter `ndebug : Bool` (`false`: assertions are active, the
  build one gets when nothing is configured);
* member functions take the object as an explicit argument and, when they are
  not `const`, return the object state next to their result;
* `unsigned levels` is a `Nat`; no function of the header ever writes to it
  after construction, so no wrap-around can occur;
* a `node *` is `Option Nat` (`none` is the null pointer).
-/

namespace SkipList

/-! ## Failures -/

/-- Ways in which a call ends without producing its result. -/
inductive Failure where
  /-- An active `assert` evaluated a false condition: diagnostic, then abort. -/
  | assertion_failed
  /-- A call names a function for which no candidate declaration exists. -/
  | no_matching_function
  deriving DecidableEq, Repr

/-- Outcome of a call that may fail. -/
abbrev Result (α : Type) := Except Failure α

/-- The `assert(cond)` of `<cassert>`: nothing when `NDEBUG` is defined, otherwise
the call fails when `cond` is false. -/
def c_assert (ndebug : Bool) (cond : Bool) : Result Unit :=
  if ndebug then .ok ()
  else if cond then .ok ()
  else .error .assertion_failed

/-- Source lines 12-14: `void not_implemented_yet() { assert("Not implemented yet" && false); }`.
The string literal converts to `true`. -/
def not_implemented_yet (ndebug : Bool) : Result Unit :=
  c_assert ndebug (true && false)

/-- End of the body of a function with a non-void return type, reached without
a `return` statement.  The behaviour is undefined: the outcome is not fixed by
the source but by whatever the compiled program does next, which is the
parameter `undef` (a returned value, for a modifier together with the object
state it leaves, or a failure). -/
def falls_off_end {α : Type} (undef : Result α) : Result α :=
  undef

/-! ## Data model -/

/-- Source line 165: `static const unsigned max_levels = 33;`. -/
def max_levels : Nat := 33

/-- A `node *`. -/
abbrev node_ptr := Option Nat

/-- Source lines 159-163: `struct node { node *next; value_type value; };`. -/
structure node (T : Type) where
  next : node_ptr
  value : T

/-- Source line 202: `class iterator {};`, a class without members. -/
structure iterator where
  deriving DecidableEq, Repr

/-- Source line 205: `class const_iterator {};`, a class without members. -/
structure const_iterator where
  deriving DecidableEq, Repr

/-- Data members of `skip_list<T,Compare,Allocator>` (source lines 167-169):
`alloc`, `levels` and the head array `nodes[max_levels]`.  The comparator is a
template argument only; the class stores no comparator object. -/
structure skip_list (T : Type) (A : Type) where
  alloc : A
  levels : Nat
  nodes : Fin max_levels → node_ptr

namespace skip_list

variable {T A : Type}

/-! ## Lifetime management -/

/-- Source lines 216-222: `skip_list(const Allocator &alloc) : alloc(alloc), levels() {}`.
`levels()` value-initialises the counter to 0.  `nodes` is not named in the
initialiser list and the body is empty, so the array keeps the content
`storage` of the memory the object is built in. -/
def ctor (storage : Fin max_levels → node_ptr) (alloc : A) : skip_list T A :=
  { alloc := alloc, levels := 0, nodes := storage }

/-- Source lines 240-247: `skip_list(const skip_list &other) : alloc(other.alloc), levels(0)`
with body `assert(false);`. -/
def ctor_copy (ndebug : Bool) (storage : Fin max_levels → node_ptr)
    (other : skip_list T A) : Result (skip_list T A) := do
  c_assert ndebug false
  pure { alloc := other.alloc, levels := 0, nodes := storage }

/-- Source lines 249-256: `skip_list(const skip_list &other, const Allocator &alloc)
: alloc(alloc), levels(0)` with body `assert(false);`. -/
def ctor_copy_alloc (ndebug : Bool) (storage : Fin max_levels → node_ptr)
    (_other : skip_list T A) (alloc : A) : Result (skip_list T A) := do
  c_assert ndebug false
  pure { alloc := alloc, levels := 0, nodes := storage }

/-- Source lines 263-268: `get_allocator() const { return alloc; }`. -/
def get_allocator (self : skip_list T A) : A :=
  self.alloc

/-! ## Capacity -/

/-- Source lines 434-439: `empty() const { return levels == 0; }`. -/
def empty (self : skip_list T A) : Bool :=
  self.levels == 0

/-- Source lines 441-447: `size() const { not_implemented_yet(); }`. -/
def size (ndebug : Bool) (undef : Result Nat) (_self : skip_list T A) : Result Nat := do
  not_implemented_yet ndebug
  falls_off_end undef

/-- Source lines 449-455: `max_size() const { not_implemented_yet(); }`. -/
def max_size (ndebug : Bool) (undef : Result Nat) (_self : skip_list T A) : Result Nat := do
  not_implemented_yet ndebug
  falls_off_end undef

/-! ## Element access and iterators -/

/-- Source lines 335-341: `iterator begin() { not_implemented_yet(); }`. -/
def begin (ndebug : Bool) (undef : Result iterator) (_self : skip_list T A) : Result iterator := do
  not_implemented_yet ndebug
  falls_off_end undef

/-- Source lines 359-365: `iterator end() { not_implemented_yet(); }`
(`end` is a reserved word here, hence the underscore). -/
def end_ (ndebug : Bool) (undef : Result iterator) (_self : skip_list T A) : Result iterator := do
  not_implemented_yet ndebug
  falls_off_end undef

/-! ## Modifiers -/

/-- Source lines 460-465: `void clear() { not_implemented_yet(); }`.  A void
function returns normally at its closing brace, with the object untouched. -/
def clear (ndebug : Bool) (self : skip_list T A) : Result (skip_list T A) := do
  not_implemented_yet ndebug
  pure self

/-- Source lines 467-473: `iterator insert(const_iterator pos, const value_type &value)
{ not_implemented_yet(); }`. -/
def insert (ndebug : Bool) (undef : Result (iterator × skip_list T A))
    (_self : skip_list T A) (_pos : const_iterator) (_value : T) :
    Result (iterator × skip_list T A) := do
  not_implemented_yet ndebug
  falls_off_end undef

/-- Source lines 477-483: `iterator insert(const_iterator pos, size_type count,
const value_type &value) { not_implemented_yet(); }`. -/
def insert_count (ndebug : Bool) (undef : Result (iterator × skip_list T A))
    (_self : skip_list T A) (_pos : const_iterator)
    (_count : Nat) (_value : T) : Result (iterator × skip_list T A) := do
  not_implemented_yet ndebug
  falls_off_end undef

/-- Source lines 497-503: `iterator erase(const_iterator position) { not_implemented_yet(); }`. -/
def erase (ndebug : Bool) (undef : Result (iterator × skip_list T A))
    (_self : skip_list T A) (_position : const_iterator) :
    Result (iterator × skip_list T A) := do
  not_implemented_yet ndebug
  falls_off_end undef

/-- Source lines 505-511: `iterator erase(const_iterator first, const_iterator last)
{ not_implemented_yet(); }`. -/
def erase_range (ndebug : Bool) (undef : Result (iterator × skip_list T A))
    (_self : skip_list T A) (_first _last : const_iterator) :
    Result (iterator × skip_list T A) := do
  not_implemented_yet ndebug
  falls_off_end undef

/-- Source lines 513-518: `void push_back(const value_type &value) { not_implemented_yet(); }`. -/
def push_back (ndebug : Bool) (self : skip_list T A) (_value : T) :
    Result (skip_list T A) := do
  not_implemented_yet ndebug
  pure self

/-- Source lines 282-287: `void assign(size_type count, const value_type &value)
{ not_implemented_yet(); }`. -/
def assign (ndebug : Bool) (self : skip_list T A) (_count : Nat) (_value : T) :
    Result (skip_list T A) := do
  not_implemented_yet ndebug
  pure self

end skip_list

/-! ## Non-members -/

/-- Source lines 533-539: `bool operator==(lhs, rhs) { not_implemented_yet(); return false; }`.
Both arguments are references that the body never writes through. -/
def operator_eq {T A : Type} (ndebug : Bool) (_lhs _rhs : skip_list T A) : Result Bool := do
  not_implemented_yet ndebug
  pure false

/-- The call `operator=(lhs, rhs)` made from a non-member function.  The header
declares `operator=` only as a member function with one parameter (source
line 75), and an assignment operator cannot be declared as a non-member, so
the two-argument call has no candidate. -/
def operator_assign_call {T A : Type} (_lhs _rhs : skip_list T A) : Result Bool :=
  .error .no_matching_function

/-- Source lines 541-546: `bool operator!=(lhs, rhs) { return !operator=(lhs, rhs); }`.
The callee is spelled `operator=`, not `operator==`. -/
def operator_ne {T A : Type} (_ndebug : Bool) (lhs rhs : skip_list T A) : Result Bool := do
  let r ← operator_assign_call lhs rhs
  pure (!r)

/-! ## Internal -/

/-- Source lines 590-596: `unsigned random_level() { return rand() % max_levels; }`.
`rand` is the value returned by `rand()`, an `int`; the operand `max_levels` is
`unsigned`, so the `int` is converted to a 32-bit `unsigned` before the
remainder is taken. -/
def random_level (rand : Int) : Nat :=
  (rand % 2 ^ 32).toNat % max_levels

/-! ## Client programs and reachable states -/

/-- The implicit conversion from `iterator` to `const_iterator` that a call
needs when it hands the result of `insert` (source line 122) to `erase` (source
line 134).  Both classes are declared without members and without a base class
(source lines 202 and 205): no converting constructor and no conversion
function exists, so the conversion has no candidate. -/
def iterator_to_const_iterator : Result (iterator → const_iterator) :=
  .error .no_matching_function

/-- A call of a modifier of the list. -/
inductive Op (T : Type) where
  | insert (pos : const_iterator) (value : T)
  | insert_count (pos : const_iterator) (count : Nat) (value : T)
  | erase (position : const_iterator)
  | erase_range (first last : const_iterator)
  | push_back (value : T)
  | clear
  | assign (count : Nat) (value : T)

/-- Execute one modifier call on the object, keeping the object state it leaves.
The parameter `undef` is the outcome of the call where its behaviour is undefined. -/
def step {T A : Type} (ndebug : Bool) (undef : Result (iterator × skip_list T A))
    (self : skip_list T A) : Op T → Result (skip_list T A)
  | .insert pos value => do
      let r ← self.insert ndebug undef pos value
      pure r.2
  | .insert_count pos count value => do
      let r ← self.insert_count ndebug undef pos count value
      pure r.2
  | .erase position => do
      let r ← self.erase ndebug undef position
      pure r.2
  | .erase_range first last => do
      let r ← self.erase_range ndebug undef first last
      pure r.2
  | .push_back value => self.push_back ndebug value
  | .clear => self.clear ndebug
  | .assign count value => self.assign ndebug count value

/-- Execute a sequence of modifier calls, stopping at the first failure.  The
parameter `undef` gives, for each object state and call, the outcome of the
call where its behaviour is undefined. -/
def run {T A : Type} (ndebug : Bool)
    (undef : skip_list T A → Op T → Result (iterator × skip_list T A))
    (self : skip_list T A) : List (Op T) → Result (skip_list T A)
  | [] => pure self
  | op :: ops => do
      let s ← step ndebug (undef self op) self op
      run ndebug undef s ops

/-- Object states that a program can hold: built by one of the constructors,
then changed by modifier calls that returned.  With assertions compiled out a
call whose behaviour is undefined may return with any state (`undef`). -/
inductive Reachable {T A : Type} (ndebug : Bool) : skip_list T A → Prop where
  | ctor (storage : Fin max_levels → node_ptr) (a : A) :
      Reachable ndebug (skip_list.ctor storage a)
  | ctor_copy (storage : Fin max_levels → node_ptr) (other c : skip_list T A) :
      Reachable ndebug other → skip_list.ctor_copy ndebug storage other = .ok c →
      Reachable ndebug c
  | ctor_copy_alloc (storage : Fin max_levels → node_ptr) (other c : skip_list T A) (a : A) :
      Reachable ndebug other → skip_list.ctor_copy_alloc ndebug storage other a = .ok c →
      Reachable ndebug c
  | step (undef : Result (iterator × skip_list T A)) (op : Op T) (s t : skip_list T A) :
      Reachable ndebug s → step ndebug undef s op = .ok t → Reachable ndebug t

/-- The program `for each v in values: s.insert(pos, v)`. -/
def insert_all {T A : Type} (ndebug : Bool)
    (undef : skip_list T A → Op T → Result (iterator × skip_list T A))
    (self : skip_list T A) (pos : const_iterator) (values : List T) :
    Result (skip_list T A) :=
  run ndebug undef self (values.map (Op.insert pos))

/-- The program `ops; s.size()`. -/
def size_after {T A : Type} (ndebug : Bool)
    (undef : skip_list T A → Op T → Result (iterator × skip_list T A))
    (undef_size : skip_list T A → Result Nat)
    (self : skip_list T A) (ops : List (Op T)) : Result Nat := do
  let s ← run ndebug undef self ops
  s.size ndebug (undef_size s)

/-- The expression `s.erase(s.insert(pos, v))`.  An expression is type-checked
before it is evaluated: the argument of `erase` has type `iterator`, its
parameter has type `const_iterator`, so the conversion is resolved first; only
then is `insert` called, and `erase` on the converted result. -/
def erase_insert {T A : Type} (ndebug : Bool)
    (undef_insert undef_erase : Result (iterator × skip_list T A))
    (self : skip_list T A) (pos : const_iterator) (value : T) :
    Result (iterator × skip_list T A) := do
  let convert ← iterator_to_const_iterator
  let r ← self.insert ndebug undef_insert pos value
  r.2.erase ndebug undef_erase (convert r.1)

/-- The program `skip_list c(s); c == s`. -/
def copy_then_compare {T A : Type} (ndebug : Bool) (storage : Fin max_levels → node_ptr)
    (self : skip_list T A) : Result Bool := do
  let c ← skip_list.ctor_copy ndebug storage self
  operator_eq ndebug c self

/-- A default-constructed `skip_list<int>` whose storage was zeroed (static
storage duration); the standard allocator has no state. -/
def fresh : skip_list Int Unit :=
  skip_list.ctor (fun _ => none) ()

/-- A default-constructed `skip_list<int>` in storage that held non-zero
bytes (automatic storage duration). -/
def fresh_on_stack : skip_list Int Unit :=
  skip_list.ctor (fun _ => some 3735928559) ()

/-! ## Auxiliary facts about the stub bodies -/

theorem not_implemented_yet_active : not_implemented_yet false = .error .assertion_failed := rfl

theorem not_implemented_yet_ndebug : not_implemented_yet true = .ok () := rfl

theorem step_active {T A : Type} (undef : Result (iterator × skip_list T A))
    (s : skip_list T A) (op : Op T) :
    step false undef s op = .error .assertion_failed := by
  cases op <;> rfl

theorem run_active_cons {T A : Type}
    (undef : skip_list T A → Op T → Result (iterator × skip_list T A))
    (s : skip_list T A) (op : Op T) (ops : List (Op T)) :
    run false undef s (op :: ops) = .error .assertion_failed := by
  simp only [run, step_active]
  rfl

theorem reachable_active_levels {T A : Type} (s : skip_list T A)
    (h : Reachable false s) : s.levels = 0 := by
  induction h with
  | ctor storage a => rfl
  | ctor_copy storage other c _ hc _ => cases hc
  | ctor_copy_alloc storage other c a _ hc _ => cases hc
  | step undef op s t _ hst _ => rw [step_active] at hst; cases hst

theorem size_after_active {T A : Type}
    (undef : skip_list T A → Op T → Result (iterator × skip_list T A))
    (undef_size : skip_list T A → Result Nat) (ops : List (Op T)) (s : skip_list T A) :
    size_after false undef undef_size s ops = .error .assertion_failed := by
  cases ops with
  | nil => rfl
  | cons op ops =>
      simp only [size_after, run_active_cons]
      rfl

/-! ## Theorems -/

/-- C10: for every allocator `a` (and whatever the object's storage held), the
list built by the default constructor has `levels = 0`, `empty()` returns true
on it, and `get_allocator()` returns `a`. -/
theorem default_ctor_levels_empty_allocator {T A : Type}
    (storage : Fin max_levels → node_ptr) (a : A) :
    (skip_list.ctor storage a : skip_list T A).levels = 0 ∧
    (skip_list.ctor storage a : skip_list T A).empty = true ∧
    (skip_list.ctor storage a : skip_list T A).get_allocator = a :=
  ⟨rfl, rfl, rfl⟩

/-- C4 (as stated, refuted): when `rand()` returns 0 the level is 0, below the
claimed lower bound 1; when it returns 32 the level is 32, and 33 gives 0
again, so `max_levels` itself is never produced from these. -/
theorem random_level_zero_not_ge_one :
    random_level 0 = 0 ∧ random_level 32 = 32 ∧ random_level 33 = 0 ∧
    ¬ (1 ≤ random_level 0 ∧ random_level 0 ≤ max_levels) := by
  decide

/-- C4 (amended): for every output of the random source, `random_level` returns
a level with `0 ≤ level ≤ max_levels - 1 = 32`, where `max_levels` is 33. -/
theorem random_level_lt_max_levels (rand : Int) :
    0 ≤ random_level rand ∧ random_level rand ≤ max_levels - 1 ∧
    random_level rand < max_levels ∧ max_levels = 33 := by
  have h : random_level rand < max_levels := Nat.mod_lt _ (by decide)
  have h33 : max_levels = 33 := rfl
  refine ⟨Nat.zero_le _, ?_, h, h33⟩
  omega

/-- C1 (as stated, refuted): on a default-constructed `skip_list<int>`, with
assertions active, the first call `insert(pos, 5)` of the sequence 5, 3, 8, 1
fails on the assertion, so the sequence is never inserted, and `begin()` and
`end()` fail as well, so no walk yields 1, 3, 5, 8. -/
theorem insert_5_3_8_1_yields_no_walk :
    fresh.insert false (.ok (⟨⟩, fresh)) ⟨⟩ 5 = .error .assertion_failed ∧
    insert_all false (fun s _ => .ok (⟨⟩, s)) fresh ⟨⟩ [5, 3, 8, 1] =
      .error .assertion_failed ∧
    fresh.begin false (.ok ⟨⟩) = .error .assertion_failed ∧
    fresh.end_ false (.ok ⟨⟩) = .error .assertion_failed :=
  ⟨rfl, rfl, rfl, rfl⟩

/-- C1 (amended): with assertions active, `insert`, `begin` and `end` are not
implemented.  On every list, for every position and value, `insert(pos, value)`
fails on the assertion "Not implemented yet", every non-empty sequence of
inserts fails at its first call, and `begin()` and `end()` fail in the same
way. -/
theorem insert_begin_end_not_implemented {T A : Type}
    (undef : skip_list T A → Op T → Result (iterator × skip_list T A))
    (undef_it : Result iterator) (s : skip_list T A)
    (pos : const_iterator) (v : T) (vs : List T) :
    s.insert false (undef s (Op.insert pos v)) pos v = .error .assertion_failed ∧
    insert_all false undef s pos (v :: vs) = .error .assertion_failed ∧
    s.begin false undef_it = .error .assertion_failed ∧
    s.end_ false undef_it = .error .assertion_failed :=
  ⟨rfl, run_active_cons undef s (Op.insert pos v) (vs.map (Op.insert pos)), rfl, rfl⟩

/-- C2 (as stated, refuted): with assertions active, on a default-constructed
list, before any insert or erase has succeeded, `size()` fails instead of
returning 0; the program `insert(pos, 5); size()` fails too instead of
returning 1. -/
theorem size_on_fresh_list_fails :
    fresh.size false (.ok 0) = .error .assertion_failed ∧
    size_after false (fun s _ => .ok (⟨⟩, s)) (fun _ => .ok 0) fresh [] =
      .error .assertion_failed ∧
    size_after false (fun s _ => .ok (⟨⟩, s)) (fun _ => .ok 1) fresh [Op.insert ⟨⟩ 5] =
      .error .assertion_failed ∧
    fresh.size false (.ok 0) ≠ .ok 0 :=
  ⟨rfl, rfl, rfl, by intro h; cases h⟩

/-- C2 (amended): with assertions active, `size()` is not implemented.  After
every sequence of modifier calls on every list, `size()` returns no number: the
program fails on the assertion "Not implemented yet"; `insert` and `erase`
themselves fail on that assertion. -/
theorem size_not_implemented {T A : Type}
    (undef : skip_list T A → Op T → Result (iterator × skip_list T A))
    (undef_size : skip_list T A → Result Nat) (s : skip_list T A)
    (ops : List (Op T)) (pos : const_iterator) (v : T) :
    size_after false undef undef_size s ops = .error .assertion_failed ∧
    s.size false (undef_size s) = .error .assertion_failed ∧
    step false (undef s (Op.insert pos v)) s (Op.insert pos v) = .error .assertion_failed ∧
    step false (undef s (Op.erase pos)) s (Op.erase pos) = .error .assertion_failed :=
  ⟨size_after_active undef undef_size ops s, rfl, rfl, rfl⟩

/-- C3 (as stated, refuted): with assertions active, a default-constructed list
in storage that held non-zero bytes is a reachable state on which `empty()`
returns true, while `size()` fails instead of returning 0 and the head slot
`nodes[0]` is not null. -/
theorem empty_true_size_fails_head_slot_not_null :
    Reachable false fresh_on_stack ∧
    fresh_on_stack.empty = true ∧
    fresh_on_stack.size false (.ok 0) = .error .assertion_failed ∧
    fresh_on_stack.nodes ⟨0, by decide⟩ = some 3735928559 ∧
    fresh_on_stack.nodes ⟨0, by decide⟩ ≠ none :=
  ⟨Reachable.ctor _ _, rfl, rfl, rfl, by intro h; cases h⟩

/-- C3 (amended): with assertions active, in every state reachable from
construction `empty()` returns true, and it returns true exactly when `levels`
is 0; `size()` fails on the assertion "Not implemented yet" in such a state. -/
theorem reachable_empty_iff_levels_zero {T A : Type} (undef_size : Result Nat)
    (s : skip_list T A) (h : Reachable false s) :
    s.empty = true ∧ (s.empty = true ↔ s.levels = 0) ∧
    s.size false undef_size = .error .assertion_failed := by
  have hl : s.levels = 0 := reachable_active_levels s h
  refine ⟨?_, ?_, rfl⟩
  · simp [skip_list.empty, hl]
  · simp [skip_list.empty]

/-- The amended C3 statement applied to a default-constructed list in used storage. -/
theorem reachable_empty_iff_levels_zero_witness :
    Reachable false fresh_on_stack ∧
    (fresh_on_stack.empty = true ∧ (fresh_on_stack.empty = true ↔ fresh_on_stack.levels = 0) ∧
      fresh_on_stack.size false (.ok 0) = .error .assertion_failed) :=
  ⟨Reachable.ctor _ _,
    reachable_empty_iff_levels_zero (.ok 0) fresh_on_stack (Reachable.ctor _ _)⟩

/-- C6 (as stated, refuted): on a default-constructed `skip_list<int>` the
expression `erase(insert(pos, 5))` does not succeed: the iterator that `insert`
returns does not convert to the `const_iterator` that `erase` takes; and with
assertions active each of the two calls on its own fails on the assertion. -/
theorem erase_insert_on_fresh_fails :
    erase_insert false (.ok (⟨⟩, fresh)) (.ok (⟨⟩, fresh)) fresh ⟨⟩ 5 =
      .error .no_matching_function ∧
    erase_insert true (.ok (⟨⟩, fresh)) (.ok (⟨⟩, fresh)) fresh ⟨⟩ 5 =
      .error .no_matching_function ∧
    fresh.insert false (.ok (⟨⟩, fresh)) ⟨⟩ 5 = .error .assertion_failed ∧
    fresh.erase false (.ok (⟨⟩, fresh)) ⟨⟩ = .error .assertion_failed :=
  ⟨rfl, rfl, rfl, rfl⟩

/-- C6 (amended): for every list, position and value, the expression
`erase(insert(pos, v))` never succeeds: it has no valid conversion from the
`iterator` returned by `insert` to the `const_iterator` taken by `erase`, in
either build; with assertions active, `insert(pos, v)` and `erase(pos)` called
on their own each fail on the assertion "Not implemented yet". -/
theorem erase_insert_never_succeeds {T A : Type} (ndebug : Bool)
    (undef_insert undef_erase : Result (iterator × skip_list T A)) (s : skip_list T A)
    (pos : const_iterator) (v : T) :
    erase_insert ndebug undef_insert undef_erase s pos v = .error .no_matching_function ∧
    s.insert false undef_insert pos v = .error .assertion_failed ∧
    s.erase false undef_erase pos = .error .assertion_failed :=
  ⟨rfl, rfl, rfl⟩

/-- C7 (as stated, refuted): copy construction from a default-constructed list
fails on `assert(false)`, with either copy constructor; with assertions
compiled out the copy is built but does not compare equal to the original. -/
theorem copy_of_fresh_list_fails :
    skip_list.ctor_copy false (fun _ => none) fresh = .error .assertion_failed ∧
    skip_list.ctor_copy_alloc false (fun _ => none) fresh () = .error .assertion_failed ∧
    copy_then_compare false (fun _ => none) fresh = .error .assertion_failed ∧
    copy_then_compare true (fun _ => none) fresh = .ok false :=
  ⟨rfl, rfl, rfl, rfl⟩

/-- C7 (amended): the copy constructors copy no element.  With assertions
active both fail on `assert(false)` for every source list; with assertions
compiled out they build what the default constructor builds (`levels = 0`,
`nodes` untouched) with the source's, respectively the given, allocator. -/
theorem copy_ctor_copies_no_element {T A : Type} (storage : Fin max_levels → node_ptr)
    (s : skip_list T A) (a : A) :
    skip_list.ctor_copy false storage s = .error .assertion_failed ∧
    skip_list.ctor_copy_alloc false storage s a = .error .assertion_failed ∧
    skip_list.ctor_copy true storage s = .ok (skip_list.ctor storage s.alloc) ∧
    skip_list.ctor_copy_alloc true storage s a = .ok (skip_list.ctor storage a) :=
  ⟨rfl, rfl, rfl, rfl⟩

/-- C8 (as stated, refuted): two default-constructed empty lists do not compare
equal: `operator==` fails on the assertion, and returns false when assertions
are compiled out. -/
theorem operator_eq_on_empty_lists_not_true :
    operator_eq false fresh fresh = .error .assertion_failed ∧
    operator_eq true fresh fresh = .ok false ∧
    operator_eq false fresh fresh ≠ .ok true ∧
    operator_eq true fresh fresh ≠ .ok true :=
  ⟨rfl, rfl, (by intro h; cases h), (by intro h; cases h)⟩

/-- C8 (amended): `operator==` never returns true.  For every pair of lists it
fails on the assertion "Not implemented yet" when assertions are active and
returns false when they are compiled out, whatever the two lists hold. -/
theorem operator_eq_never_true {T A : Type} (ndebug : Bool) (lhs rhs : skip_list T A) :
    operator_eq ndebug lhs rhs = (if ndebug then .ok false else .error .assertion_failed) ∧
    operator_eq ndebug lhs rhs ≠ .ok true := by
  cases ndebug
  · exact ⟨rfl, by intro h; cases h⟩
  · exact ⟨rfl, by intro h; cases h⟩

/-- C9 (code evaluated at the failing input): on two default-constructed lists
`operator!=` ends in the call `operator=(lhs, rhs)`, which has no candidate,
in either build; it therefore does not return the negation of what
`operator==` returns (false, when assertions are compiled out). -/
theorem operator_ne_calls_assignment :
    operator_ne false fresh fresh = .error .no_matching_function ∧
    operator_ne true fresh fresh = .error .no_matching_function ∧
    operator_eq true fresh fresh = .ok false ∧
    operator_ne true fresh fresh ≠ .ok (!false) :=
  ⟨rfl, rfl, rfl, by intro h; cases h⟩

end SkipList
